import Mathlib

/-!
Shallow embedding of the methane-number estimators of the `dvulin/gas_quality`
repository (files `src/calc/methane_number.py` and `src/calc/mn.py`), together
with theorems settling the frozen claims about them.

Conventions of the embedding:
* Python floats are modelled as exact rationals (`ℚ`); the claims under study
  are about the algorithmic structure (branching, table lookups, exact
  comparisons against literal thresholds), not about IEEE rounding.
* A Python dict mapping component names to fractions is modelled as a total
  function `Component → ℚ`, a key that is absent being the value `0`.  Every
  guard in the sources reads a fraction either through `.get(k, 0.0)` or
  behind a `> 0` / `== 0` test, so this identification is faithful.
* A call that returns normally is `PyResult.ok v`; a call that raises
  `ValueError` (resp. `TypeError`) is `PyResult.valueError` (resp.
  `PyResult.typeError`).  Warnings are non-fatal in the sources and are not
  modelled.
-/

/-- The component vocabulary of the two modules: canonical species, isomer and
overflow aliases, and the ignored species `O2`.  `C6plus` stands for the input
token `C6+` and `hexanesPlus` for `hexanes+`. -/
inductive Component where
  | CH4 | C2H6 | C3H8 | C4H10 | iC4H10 | nC4H10
  | C5H12 | iC5H12 | nC5H12 | C6H14 | C6plus | hexanesPlus | C7plus
  | N2 | CO2 | H2S | H2O | H2
  | CO | C2H4 | C3H6 | C4H6 | C4H8 | O2
deriving DecidableEq

/-- Every constructor of `Component`, listed once. -/
def Component.all : List Component :=
  [.CH4, .C2H6, .C3H8, .C4H10, .iC4H10, .nC4H10,
   .C5H12, .iC5H12, .nC5H12, .C6H14, .C6plus, .hexanesPlus, .C7plus,
   .N2, .CO2, .H2S, .H2O, .H2,
   .CO, .C2H4, .C3H6, .C4H6, .C4H8, .O2]

/-- Outcome of a call to one of the Python estimators. -/
inductive PyResult where
  | ok (v : ℚ)
  | valueError
  | typeError
deriving DecidableEq

/-- TMN table from EN 16726:2015 Annex A, Table A.2; identical in
`methane_number.py` and `mn.py`.  Rows are indexed by `Mnemo_B`, columns by
`Mnemo_C`. -/
def TMN_TABLE : List (List ℚ) :=
  [[100, 100, 100, 100, 100, 100, 100, 100, 100, 100, 100],
   [100, 964277/10000, 928554/10000, 892831/10000, 857108/10000, 821385/10000,
    785662/10000, 749939/10000, 714216/10000, 678493/10000, 64277/1000],
   [100, 100, 964277/10000, 928554/10000, 892831/10000, 857108/10000,
    821385/10000, 785662/10000, 749939/10000, 714216/10000, 678493/10000],
   [100, 100, 100, 964277/10000, 928554/10000, 892831/10000, 857108/10000,
    821385/10000, 785662/10000, 749939/10000, 714216/10000]]

/-- Row axis of `TMN_TABLE` (`MNEMO_B_VALUES` in both files). -/
def MNEMO_B_VALUES : List ℚ := [1, 2, 3, 4]

/-- Column axis of `TMN_TABLE` (`MNEMO_C_VALUES` in both files). -/
def MNEMO_C_VALUES : List ℚ :=
  [0, 1/10, 2/10, 3/10, 4/10, 5/10, 6/10, 7/10, 8/10, 9/10, 1]

/-- Coefficient table of the A20 system (`A20_COEFFICIENTS`, identical in both
files): rows 0..2 have six entries, row 3 has two. -/
def A20_COEFFICIENTS : List (List ℚ) :=
  [[29917430/100000, -15119580/1000000, -31156360/100000000, 76359480/100000000,
    45480690/1000000000, 11230410/1000000000],
   [-23762630/1000000000, -71562940/100000000000, 65557090/100000000000,
    -21468550/10000000000, 43554940/100000000000, 38606680/10000000000000],
   [13816990/10000000000000, -79339020/10000000000000, 66993640/1000000000000,
    -46077260/10000000000000, 26105700/1000000000000000,
    -61439140/1000000000000000000],
   [-83693870/100000000000000, 39280730/10000000000000000]]

/-- Loop body of `_find_closest_index` (identical in both files): walk the
list keeping the index of the smallest absolute difference seen so far,
updating only on a strict improvement, so the first (lowest) index wins ties.
`i` is the index of the head of the remaining list. -/
def find_closest_go (v : ℚ) : List ℚ → ℕ → ℕ → ℚ → ℕ
  | [], _, best, _ => best
  | x :: xs, i, best, bestD =>
      if |x - v| < bestD then find_closest_go v xs (i + 1) i |x - v|
      else find_closest_go v xs (i + 1) best bestD

/-- `_find_closest_index(value, value_list)`: the initial best is index `0`
with difference `abs(value_list[0] - value)`, and the loop then runs over the
whole list.  The sources index `value_list[0]` unconditionally; they are only
ever called on the two nonempty axis lists, so the `[]` case is arbitrary. -/
def find_closest_index (v : ℚ) : List ℚ → ℕ
  | [] => 0
  | x :: xs => find_closest_go v (x :: xs) 0 0 |x - v|

/-- `_get_tmn(mnemo_b, mnemo_c)` (identical in both files): nearest-neighbour
indices into the two axes, then the indices are constrained to the table
bounds (`max(0, min(idx, len - 1))`), then the table is read. -/
def get_tmn (mnemo_b mnemo_c : ℚ) : ℚ :=
  (TMN_TABLE.getD
      (max 0 (min (find_closest_index mnemo_b MNEMO_B_VALUES) (TMN_TABLE.length - 1)))
      []).getD
    (max 0 (min (find_closest_index mnemo_c MNEMO_C_VALUES) ((TMN_TABLE.getD 0 []).length - 1)))
    0

/-- Python's `round` to an integer: round half to even (banker's rounding). -/
def bankersRound (q : ℚ) : ℤ :=
  if q - ⌊q⌋ < 1/2 then ⌊q⌋
  else if 1/2 < q - ⌊q⌋ then ⌊q⌋ + 1
  else if ⌊q⌋ % 2 = 0 then ⌊q⌋ else ⌊q⌋ + 1

/-- Python's `round(q, 0)` as used by `methane_number.py`. -/
def pyRound0 (q : ℚ) : ℚ := (bankersRound q : ℚ)

/-- Python's `round(q, 2)` as used by `mn.py`. -/
def pyRound2 (q : ℚ) : ℚ := (bankersRound (q * 100) : ℚ) / 100

/-- A dict holds a negative fraction; both estimators raise `ValueError` when
they meet one while iterating the composition. -/
def hasNeg (f : Component → ℚ) : Prop := ∃ c ∈ Component.all, f c < 0

instance (f : Component → ℚ) : Decidable (hasNeg f) :=
  inferInstanceAs (Decidable (∃ c ∈ Component.all, f c < 0))

/-- Sum of the fractions of the members of `l` that are strictly positive
(the entries of the corresponding Python group dict; a key whose fraction is
not positive is not an entry and contributes `0`). -/
def sumPos (comp : Component → ℚ) (l : List Component) : ℚ :=
  (l.map fun k => if 0 < comp k then comp k else 0).sum

/-! ## `src/calc/mn.py` -/

/-- `GROUP_A` of `mn.py`. -/
def mn_GROUP_A : List Component := [.CH4, .C2H6]

/-- `GROUP_B` of `mn.py`: propane and the two butane isomers (no aliasing in
this module). -/
def mn_GROUP_B : List Component := [.C3H8, .iC4H10, .nC4H10]

/-- `GROUP_C_COMPONENTS` of `mn.py`. -/
def mn_GROUP_C : List Component :=
  [.iC5H12, .nC5H12, .C6H14, .C7plus, .N2, .CO2, .H2S, .H2O]

/-- `ALLOWED_COMPONENTS` of `mn.py` (every other token is warned about and
dropped from all sums). -/
def mn_ALLOWED : List Component := mn_GROUP_A ++ mn_GROUP_B ++ mn_GROUP_C

/-- `CARBON_ATOMS` of `mn.py`; components outside the dict never reach a
lookup, so they are given `0` here. -/
def mn_CARBON_ATOMS : Component → ℚ
  | .CH4 => 1 | .C2H6 => 2 | .C3H8 => 3
  | .iC4H10 => 4 | .nC4H10 => 4
  | .iC5H12 => 5 | .nC5H12 => 5
  | .C6H14 => 6 | .C7plus => 7
  | .N2 => 0 | .CO2 => 1 | .H2S => 0 | .H2O => 0
  | _ => 0

/-- `_calculate_mn_a20(x_ch4, y_co2)` of `mn.py`: the nested loop
`for i in range(8): for j in range(7 - i):` accumulating
`coeffs[i][j] * x**i * y**j` whenever `i < len(coeffs)` and
`j < len(coeffs[i])`. -/
def mn_calculate_mn_a20 (x_ch4 y_co2 : ℚ) : ℚ :=
  ∑ i ∈ Finset.range 8, ∑ j ∈ Finset.range (7 - i),
    if i < A20_COEFFICIENTS.length ∧ j < (A20_COEFFICIENTS.getD i []).length then
      (A20_COEFFICIENTS.getD i []).getD j 0 * x_ch4 ^ i * y_co2 ^ j
    else 0

/-- `sum_b = sum(group_b.values())` in `mn.py`. -/
def mn_sumB (comp : Component → ℚ) : ℚ := sumPos comp mn_GROUP_B

/-- `sum_c = sum(group_c.values())` in `mn.py`. -/
def mn_sumC (comp : Component → ℚ) : ℚ := sumPos comp mn_GROUP_C

/-- `mnemo_b = numerator_b / sum_b` in `mn.py`, the carbon-weighted mean of
the group-B fractions. -/
def mn_mnemoB (comp : Component → ℚ) : ℚ :=
  ((mn_GROUP_B.map fun k =>
      if 0 < comp k then comp k * mn_CARBON_ATOMS k else 0).sum) / mn_sumB comp

/-- `mnemo_c = numerator_c / sum_c` in `mn.py`. -/
def mn_mnemoC (comp : Component → ℚ) : ℚ :=
  ((mn_GROUP_C.map fun k =>
      if 0 < comp k then comp k * mn_CARBON_ATOMS k else 0).sum) / mn_sumC comp

/-- The double loop over `group_b.items()` and `group_c.items()` in `mn.py`
accumulating `y_b * y_c * tmn_value`, with `tmn_value` looked up afresh (at
the same aggregate point) on every iteration. -/
def mn_mnPrime (comp : Component → ℚ) : ℚ :=
  (mn_GROUP_B.map fun b =>
    (mn_GROUP_C.map fun c =>
      (if 0 < comp b then comp b else 0) * (if 0 < comp c then comp c else 0)
        * get_tmn (mn_mnemoB comp) (mn_mnemoC comp)).sum).sum

/-- `sum_combustibles = sum(group_a.values()) + sum(group_b.values())` in
`mn.py`. -/
def mn_sumCombustibles (comp : Component → ℚ) : ℚ :=
  sumPos comp mn_GROUP_A + sumPos comp mn_GROUP_B

/-- Step 4 of `mn.py`: `total_for_a20 = sum_combustibles + co2_fraction`; when
it is positive the A20 correction applies, otherwise `mn = mn_prime`. -/
def mn_mnFinal (comp : Component → ℚ) : ℚ :=
  if 0 < mn_sumCombustibles comp + comp .CO2 then
    mn_mnPrime comp
      + mn_calculate_mn_a20
          (mn_sumCombustibles comp / (mn_sumCombustibles comp + comp .CO2) * 100)
          (comp .CO2 / (mn_sumCombustibles comp + comp .CO2) * 100)
      - 1000003/10000
  else mn_mnPrime comp

/-- `estimate_methane_number` of `mn.py`.  A negative fraction raises
`ValueError`; with no negative fraction a component lands in a group exactly
when its fraction is positive.  When group B or group C is empty, a
composition whose group A is exactly `{CH4}` returns `100.0` directly and any
other composition raises `ValueError`; then the (unreachable) guard
`sum_b <= 0 or sum_c <= 0` raises `ValueError`; otherwise the final value is
`round(mn, 2)`. -/
def mn_estimate (comp : Component → ℚ) : PyResult :=
  if hasNeg comp then .valueError
  else if (¬ ∃ b ∈ mn_GROUP_B, 0 < comp b) ∨ (¬ ∃ c ∈ mn_GROUP_C, 0 < comp c) then
    if 0 < comp .CH4 ∧ ¬ 0 < comp .C2H6 then .ok 100 else .valueError
  else if mn_sumB comp ≤ 0 ∨ mn_sumC comp ≤ 0 then .valueError
  else .ok (pyRound2 (mn_mnFinal comp))

/-! ## `src/calc/methane_number.py` -/

/-- `COMPONENT_ALIASES` of `methane_number.py` as a total map: alias tokens go
to their canonical key, every other token goes to itself. -/
def mnum_alias : Component → Component
  | .iC4H10 => .C4H10
  | .nC4H10 => .C4H10
  | .iC5H12 => .C5H12
  | .nC5H12 => .C5H12
  | .C6plus => .C6H14
  | .hexanesPlus => .C6H14
  | c => c

/-- `_normalize_composition`: fractions of tokens sharing a canonical key are
summed onto that key; a key no raw token maps to holds `0` (absent). -/
def mnum_normalize (comp : Component → ℚ) (c : Component) : ℚ :=
  (Component.all.map fun k => if mnum_alias k = c then comp k else 0).sum

/-- `GROUP_A` of `methane_number.py`. -/
def mnum_GROUP_A : List Component := [.CH4, .C2H6]

/-- `GROUP_B` of `methane_number.py`: propane and butanes (isomers are folded
onto `C4H10` by normalization first). -/
def mnum_GROUP_B : List Component := [.C3H8, .C4H10]

/-- `GROUP_C_COMPONENTS` of `methane_number.py`: higher hydrocarbons, inerts,
hydrogen and the other combustibles of the standard. -/
def mnum_GROUP_C : List Component :=
  [.C5H12, .C6H14, .C7plus, .N2, .CO2, .H2S, .H2O, .H2, .CO, .C2H4, .C3H6, .C4H6, .C4H8]

/-- `CARBON_ATOMS` of `methane_number.py`; lookups outside the dict go through
`.get(comp, 0)`, so missing keys are `0`. -/
def mnum_CARBON_ATOMS : Component → ℚ
  | .CH4 => 1 | .C2H6 => 2 | .C3H8 => 3
  | .C4H10 => 4 | .C5H12 => 5 | .C6H14 => 6 | .C7plus => 7
  | .CO => 1 | .C2H4 => 2 | .C3H6 => 3 | .C4H6 => 4 | .C4H8 => 4
  | .N2 => 0 | .CO2 => 1 | .H2S => 0 | .H2O => 0 | .H2 => 0
  | _ => 0

/-- One conversion step of `_simplify_composition`: when the source key holds
a positive fraction, pop it and add `fraction * mult` onto the `C4H10`
bucket. -/
def mnum_simplifyStep (src : Component) (mult : ℚ) (f : Component → ℚ) :
    Component → ℚ :=
  if 0 < f src then
    fun c =>
      if c = .C4H10 then f .C4H10 + f src * mult
      else if c = src then 0 else f c
  else f

/-- `_simplify_composition` of `methane_number.py`: butadiene and butylene
fold into `C4H10` with multiplier `1.0`, pentanes with `2.3`, hexanes and
`C7plus` with `5.3`, in the order of the source. -/
def mnum_simplify (f : Component → ℚ) : Component → ℚ :=
  mnum_simplifyStep .C7plus (53/10)
    (mnum_simplifyStep .C6H14 (53/10)
      (mnum_simplifyStep .C5H12 (23/10)
        (mnum_simplifyStep .C4H8 1
          (mnum_simplifyStep .C4H6 1 f))))

/-- `all_combustibles = {**group_a, **group_b}`: the normalized fractions of
the group-A and group-B members that are positive (this is the dict that
`estimate_methane_number` hands to `_simplify_composition`). -/
def mnum_combustibles (comp : Component → ℚ) (c : Component) : ℚ :=
  if (c ∈ mnum_GROUP_A ∨ c ∈ mnum_GROUP_B) ∧ 0 < mnum_normalize comp c then
    mnum_normalize comp c
  else 0

/-- `simplified_b = _simplify_composition(all_combustibles)`. -/
def mnum_simplified (comp : Component → ℚ) : Component → ℚ :=
  mnum_simplify (mnum_combustibles comp)

/-- `sum_b = sum(group_b_simplified.values())` in `methane_number.py`. -/
def mnum_sumB (comp : Component → ℚ) : ℚ :=
  sumPos (mnum_simplified comp) mnum_GROUP_B

/-- `sum_c = sum(group_c.values())` in `methane_number.py`. -/
def mnum_sumC (comp : Component → ℚ) : ℚ :=
  sumPos (mnum_normalize comp) mnum_GROUP_C

/-- `mnemo_b = numerator_b / sum_b` in `methane_number.py`. -/
def mnum_mnemoB (comp : Component → ℚ) : ℚ :=
  ((mnum_GROUP_B.map fun k =>
      if 0 < mnum_simplified comp k then mnum_simplified comp k * mnum_CARBON_ATOMS k
      else 0).sum) / mnum_sumB comp

/-- `mnemo_c = numerator_c / sum_c` in `methane_number.py` (the numerator uses
`CARBON_ATOMS.get(comp, 0)`). -/
def mnum_mnemoC (comp : Component → ℚ) : ℚ :=
  ((mnum_GROUP_C.map fun k =>
      if 0 < mnum_normalize comp k then mnum_normalize comp k * mnum_CARBON_ATOMS k
      else 0).sum) / mnum_sumC comp

/-- The double loop of `methane_number.py` over `group_b_simplified.items()`
and `group_c.items()` accumulating `y_b * y_c * tmn_value`. -/
def mnum_totalMn (comp : Component → ℚ) : ℚ :=
  (mnum_GROUP_B.map fun b =>
    (mnum_GROUP_C.map fun c =>
      (if 0 < mnum_simplified comp b then mnum_simplified comp b else 0)
        * (if 0 < mnum_normalize comp c then mnum_normalize comp c else 0)
        * get_tmn (mnum_mnemoB comp) (mnum_mnemoC comp)).sum).sum

/-- `mn_prime` in `methane_number.py`: the TMN double sum when both
`sum_b > 1e-6` and `sum_c > 1e-6`, and `100.0` otherwise. -/
def mnum_mnPrime (comp : Component → ℚ) : ℚ :=
  if 1/1000000 < mnum_sumB comp ∧ 1/1000000 < mnum_sumC comp then mnum_totalMn comp
  else 100

/-- `sum_combustibles` inside `_correct_for_inerts`: the fractions of the RAW
(unnormalized) composition whose key is not one of `N2, CO2, H2O, O2` and
whose value is positive. -/
def mnum_sumCombExInerts (comp : Component → ℚ) : ℚ :=
  (Component.all.map fun k =>
    if k ∉ ([.N2, .CO2, .H2O, .O2] : List Component) ∧ 0 < comp k then comp k
    else 0).sum

/-- The `_calculate_mn_a20` of `methane_number.py`.  Its `def` line on line 1
of the file is immediately followed by the module docstring, which becomes the
function's only body statement; the arithmetic that was meant to be its body
sits unreachable after the `return` of `_correct_for_inerts`.  The call
therefore returns Python `None`, embedded here as `none`. -/
def mnum_calculate_mn_a20 (_x_ch4 _y_co2 : ℚ) : Option ℚ := none

/-- `_correct_for_inerts(composition_original)` of `methane_number.py`:
`sum_all = sum_combustibles + n2 + co2`; when `sum_all - n2 > 1e-9` the
nitrogen-free percentages are handed to `_calculate_mn_a20` (which yields
`None`), otherwise the result is `100.0`. -/
def mnum_correct_for_inerts (comp : Component → ℚ) : Option ℚ :=
  if 1/1000000000 <
      mnum_sumCombExInerts comp + comp .N2 + comp .CO2 - comp .N2 then
    mnum_calculate_mn_a20
      (mnum_sumCombExInerts comp * 100
        / (mnum_sumCombExInerts comp + comp .N2 + comp .CO2 - comp .N2))
      (comp .CO2 * 100
        / (mnum_sumCombExInerts comp + comp .N2 + comp .CO2 - comp .N2))
  else some 100

/-- `estimate_methane_number` of `methane_number.py`: a negative normalized
fraction raises `ValueError`; otherwise
`mn = mn_prime + mn_inerts - 100.0003` is computed with `mn_inerts` taken
from `_correct_for_inerts` on the ORIGINAL composition — when that value is
`None` the addition raises `TypeError` — and the result is clamped by
`max(0.0, min(100.0, mn))` and returned as `round(mn, 0)`. -/
def mnum_estimate (comp : Component → ℚ) : PyResult :=
  if hasNeg (mnum_normalize comp) then .valueError
  else
    (mnum_correct_for_inerts comp).elim .typeError fun mnInerts =>
      .ok (pyRound0 (max 0 (min 100 (mnum_mnPrime comp + mnInerts - 1000003/10000))))

/-! ## Specification-side definitions and concrete compositions -/

/-- The A20 series as the specification words it: the sum of
`a[i][j] * x^i * y^j` over exactly the supplied entries of the coefficient
matrix (triangular truncation — terms beyond the supplied coefficients are
simply absent). -/
def a20SuppliedSeries (x y : ℚ) : ℚ :=
  ∑ i ∈ Finset.range A20_COEFFICIENTS.length,
    ∑ j ∈ Finset.range (A20_COEFFICIENTS.getD i []).length,
      (A20_COEFFICIENTS.getD i []).getD j 0 * x ^ i * y ^ j

/-- The inert correction as claim C6 words it: `total` is the sum of all
inert and combustible fractions with only `O2` excluded (so `H2O` counts),
`x = 100 * sum(combustibles) / (total - N2)`,
`y = 100 * CO2 / (total - N2)`, the A20 polynomial is evaluated at `(x, y)`,
and the result is `100.0` exactly when `total - N2 <= 1e-9`. -/
def correctForInertsClaim (comp : Component → ℚ) : ℚ :=
  if mnum_sumCombExInerts comp + comp .N2 + comp .CO2 + comp .H2O - comp .N2
      ≤ 1/1000000000 then 100
  else
    a20SuppliedSeries
      (100 * mnum_sumCombExInerts comp
        / (mnum_sumCombExInerts comp + comp .N2 + comp .CO2 + comp .H2O - comp .N2))
      (100 * comp .CO2
        / (mnum_sumCombExInerts comp + comp .N2 + comp .CO2 + comp .H2O - comp .N2))

/-- The composition `{"CH4": 1.0}`. -/
def pureCH4 : Component → ℚ
  | .CH4 => 1
  | _ => 0

/-- The empty composition `{}`. -/
def emptyComp : Component → ℚ := fun _ => 0

/-- The composition `{"H2O": 1.0}`. -/
def h2oOnly : Component → ℚ
  | .H2O => 1
  | _ => 0

/-- The composition `{"C3H8": 0.5, "N2": 0.5}` (a valid unit-sum composition
made of a group-B and a group-C species only). -/
def propaneNitrogen : Component → ℚ
  | .C3H8 => 1/2
  | .N2 => 1/2
  | _ => 0

/-- The composition `{"CH4": 0.9, "C3H8": 0.05, "C5H12": 0.03, "N2": 0.02}`
containing a pentane fraction. -/
def pentaneMix : Component → ℚ
  | .CH4 => 9/10
  | .C3H8 => 1/20
  | .C5H12 => 3/100
  | .N2 => 1/50
  | _ => 0

/-- The dict `{"C5H12": 0.03}` fed directly to `_simplify_composition`. -/
def pentaneOnly : Component → ℚ
  | .C5H12 => 3/100
  | _ => 0

/-- The end-to-end scenario composition of the specification:
`{CH4: 0.85, C2H6: 0.06, C3H8: 0.03, C4H10: 0.012, N2: 0.03, CO2: 0.012}`. -/
def scenarioComp : Component → ℚ
  | .CH4 => 85/100
  | .C2H6 => 6/100
  | .C3H8 => 3/100
  | .C4H10 => 12/1000
  | .N2 => 3/100
  | .CO2 => 12/1000
  | _ => 0

/-! ## Helper lemmas -/

/-- `Component.all` is complete. -/
theorem component_mem_all (c : Component) : c ∈ Component.all := by
  cases c <;> decide

/-- A list of nonnegative rationals with zero sum is pointwise zero. -/
theorem sum_zero_of_nonneg :
    ∀ l : List ℚ, (∀ x ∈ l, 0 ≤ x) → l.sum = 0 → ∀ x ∈ l, x = 0 := by
  intro l
  induction l with
  | nil => intro _ _ x hx; cases hx
  | cons a t ih =>
    intro hpos hz x hx
    have hta : 0 ≤ t.sum := List.sum_nonneg fun y hy => hpos y (List.mem_cons_of_mem a hy)
    have ha : 0 ≤ a := hpos a (List.mem_cons_self a t)
    have hsum : a + t.sum = 0 := by simpa using hz
    rcases List.mem_cons.1 hx with rfl | hx'
    · linarith
    · exact ih (fun y hy => hpos y (List.mem_cons_of_mem a hy)) (by linarith) x hx'

/-- The search loop never moves off `best` when no remaining distance beats
the current one strictly. -/
theorem find_closest_go_stay (v : ℚ) :
    ∀ (xs : List ℚ) (i best : ℕ) (bestD : ℚ),
      (∀ x ∈ xs, bestD ≤ |x - v|) → find_closest_go v xs i best bestD = best := by
  intro xs
  induction xs with
  | nil => intro i best bestD _; rfl
  | cons x t ih =>
    intro i best bestD h
    have e : find_closest_go v (x :: t) i best bestD
        = if |x - v| < bestD then find_closest_go v t (i + 1) i |x - v|
          else find_closest_go v t (i + 1) best bestD := rfl
    rw [e, if_neg (not_lt.mpr (h x (List.mem_cons_self x t)))]
    exact ih (i + 1) best bestD fun y hy => h y (List.mem_cons_of_mem x hy)

/-- When the distances along the remaining list strictly decrease and the
head already beats the current best, the search ends on the last index. -/
theorem find_closest_go_advance (v : ℚ) :
    ∀ (xs : List ℚ) (x : ℚ) (i best : ℕ) (bestD : ℚ),
      |x - v| < bestD → List.Chain (fun a b => |b - v| < |a - v|) x xs →
      find_closest_go v (x :: xs) i best bestD = i + xs.length := by
  intro xs
  induction xs with
  | nil =>
    intro x i best bestD hx _
    have e : find_closest_go v [x] i best bestD
        = if |x - v| < bestD then i else best := rfl
    rw [e, if_pos hx]
    rfl
  | cons y t ih =>
    intro x i best bestD hx hch
    rcases List.chain_cons.1 hch with ⟨hxy, hch'⟩
    have e : find_closest_go v (x :: y :: t) i best bestD
        = if |x - v| < bestD then find_closest_go v (y :: t) (i + 1) i |x - v|
          else find_closest_go v (y :: t) (i + 1) best bestD := rfl
    rw [e, if_pos hx, ih y (i + 1) i |x - v| hxy hch']
    simp [List.length_cons]
    omega

/-- A query at or below the bottom of the `Mnemo_B` axis resolves to index
`0`. -/
theorem fci_B_low {v : ℚ} (h : v ≤ 1) : find_closest_index v MNEMO_B_VALUES = 0 := by
  have e : find_closest_index v MNEMO_B_VALUES
      = find_closest_go v [1, 2, 3, 4] 0 0 |1 - v| := rfl
  rw [e]
  apply find_closest_go_stay
  intro x hx
  have hx1 : (1:ℚ) ≤ x := by fin_cases hx <;> norm_num
  rw [abs_of_nonneg (by linarith : (0:ℚ) ≤ 1 - v),
    abs_of_nonneg (by linarith : (0:ℚ) ≤ x - v)]
  linarith

/-- A query at or above the top of the `Mnemo_B` axis resolves to index
`3`. -/
theorem fci_B_high {v : ℚ} (h : 4 ≤ v) : find_closest_index v MNEMO_B_VALUES = 3 := by
  have habs : ∀ a : ℚ, a ≤ 4 → |a - v| = v - a := by
    intro a ha
    rw [abs_sub_comm, abs_of_nonneg (by linarith)]
  have e : find_closest_index v MNEMO_B_VALUES
      = find_closest_go v [2, 3, 4] 1 0 |1 - v| := by
    have e0 : find_closest_index v MNEMO_B_VALUES
        = if |1 - v| < |1 - v| then find_closest_go v [2, 3, 4] 1 0 |1 - v|
          else find_closest_go v [2, 3, 4] 1 0 |1 - v| := rfl
    rw [e0, if_neg (lt_irrefl _)]
  rw [e, find_closest_go_advance v [3, 4] 2 1 0 |1 - v|
      (by rw [habs 2 (by norm_num), habs 1 (by norm_num)]; linarith)
      (List.Chain.cons (by rw [habs 3 (by norm_num), habs 2 (by norm_num)]; linarith)
        (List.Chain.cons (by rw [habs 4 (by norm_num), habs 3 (by norm_num)]; linarith)
          List.Chain.nil))]
  rfl

/-- A query at or below the bottom of the `Mnemo_C` axis resolves to index
`0`. -/
theorem fci_C_low {v : ℚ} (h : v ≤ 0) : find_closest_index v MNEMO_C_VALUES = 0 := by
  have e : find_closest_index v MNEMO_C_VALUES
      = find_closest_go v [0, 1/10, 2/10, 3/10, 4/10, 5/10, 6/10, 7/10, 8/10, 9/10, 1]
          0 0 |0 - v| := rfl
  rw [e]
  apply find_closest_go_stay
  intro x hx
  have hx1 : (0:ℚ) ≤ x := by fin_cases hx <;> norm_num
  rw [abs_of_nonneg (by linarith : (0:ℚ) ≤ 0 - v),
    abs_of_nonneg (by linarith : (0:ℚ) ≤ x - v)]
  linarith

/-- A query at or above the top of the `Mnemo_C` axis resolves to index
`10`. -/
theorem fci_C_high {v : ℚ} (h : 1 ≤ v) : find_closest_index v MNEMO_C_VALUES = 10 := by
  have habs : ∀ a : ℚ, a ≤ 1 → |a - v| = v - a := by
    intro a ha
    rw [abs_sub_comm, abs_of_nonneg (by linarith)]
  have e : find_closest_index v MNEMO_C_VALUES
      = find_closest_go v [1/10, 2/10, 3/10, 4/10, 5/10, 6/10, 7/10, 8/10, 9/10, 1]
          1 0 |0 - v| := by
    have e0 : find_closest_index v MNEMO_C_VALUES
        = if |0 - v| < |0 - v| then
            find_closest_go v [1/10, 2/10, 3/10, 4/10, 5/10, 6/10, 7/10, 8/10, 9/10, 1]
              1 0 |0 - v|
          else
            find_closest_go v [1/10, 2/10, 3/10, 4/10, 5/10, 6/10, 7/10, 8/10, 9/10, 1]
              1 0 |0 - v| := rfl
    rw [e0, if_neg (lt_irrefl _)]
  have link : ∀ a b : ℚ, a ≤ 1 → b ≤ 1 → b < a → |a - v| < |b - v| := by
    intro a b ha hb hba
    rw [habs a ha, habs b hb]
    linarith
  rw [e, find_closest_go_advance v [2/10, 3/10, 4/10, 5/10, 6/10, 7/10, 8/10, 9/10, 1]
      (1/10) 1 0 |0 - v|
      (by rw [habs (1/10) (by norm_num), habs 0 (by norm_num)]; linarith)
      (List.Chain.cons (link (2/10) (1/10) (by norm_num) (by norm_num) (by norm_num))
        (List.Chain.cons (link (3/10) (2/10) (by norm_num) (by norm_num) (by norm_num))
          (List.Chain.cons (link (4/10) (3/10) (by norm_num) (by norm_num) (by norm_num))
            (List.Chain.cons (link (5/10) (4/10) (by norm_num) (by norm_num) (by norm_num))
              (List.Chain.cons (link (6/10) (5/10) (by norm_num) (by norm_num) (by norm_num))
                (List.Chain.cons (link (7/10) (6/10) (by norm_num) (by norm_num) (by norm_num))
                  (List.Chain.cons (link (8/10) (7/10) (by norm_num) (by norm_num) (by norm_num))
                    (List.Chain.cons (link (9/10) (8/10) (by norm_num) (by norm_num) (by norm_num))
                      (List.Chain.cons (link 1 (9/10) (by norm_num) (by norm_num) (by norm_num))
                        List.Chain.nil)))))))))]
  rfl

/-- Clamping the `Mnemo_B` query to `[1, 4]` does not change the index the
search resolves to. -/
theorem fci_B_clamp (b : ℚ) :
    find_closest_index b MNEMO_B_VALUES
      = find_closest_index (max 1 (min b 4)) MNEMO_B_VALUES := by
  rcases le_total b 1 with h1 | h1
  · rw [min_eq_left (le_trans h1 (by norm_num)), max_eq_left h1,
      fci_B_low h1, fci_B_low le_rfl]
  · rcases le_total b 4 with h4 | h4
    · rw [min_eq_left h4, max_eq_right h1]
    · rw [min_eq_right h4, max_eq_right (by norm_num : (1:ℚ) ≤ 4),
        fci_B_high h4, fci_B_high le_rfl]

/-- Clamping the `Mnemo_C` query to `[0, 1]` does not change the index the
search resolves to. -/
theorem fci_C_clamp (c : ℚ) :
    find_closest_index c MNEMO_C_VALUES
      = find_closest_index (max 0 (min c 1)) MNEMO_C_VALUES := by
  rcases le_total c 0 with h0 | h0
  · rw [min_eq_left (le_trans h0 (by norm_num)), max_eq_left h0,
      fci_C_low h0, fci_C_low le_rfl]
  · rcases le_total c 1 with h1 | h1
    · rw [min_eq_left h1, max_eq_right h0]
    · rw [min_eq_right h1, max_eq_right (by norm_num : (0:ℚ) ≤ 1),
        fci_C_high h1, fci_C_high le_rfl]

/-- Banker's rounding keeps a value of `[0, 100]` inside `[0, 100]`. -/
theorem bankersRound_bounds {w : ℚ} (h0 : 0 ≤ w) (h1 : w ≤ 100) :
    0 ≤ bankersRound w ∧ bankersRound w ≤ 100 := by
  have hfle : (⌊w⌋ : ℚ) ≤ w := Int.floor_le w
  have hflt : w < ⌊w⌋ + 1 := Int.lt_floor_add_one w
  have hf0 : 0 ≤ ⌊w⌋ := Int.le_floor.mpr (by exact_mod_cast h0)
  have hf100 : ⌊w⌋ ≤ 100 := by
    have : (⌊w⌋ : ℚ) ≤ 100 := le_trans hfle h1
    exact_mod_cast this
  unfold bankersRound
  split_ifs with hc1 hc2 hc3
  · exact ⟨hf0, hf100⟩
  · refine ⟨by omega, ?_⟩
    have : (⌊w⌋ : ℚ) + 1/2 ≤ w := by linarith
    have h99 : (⌊w⌋ : ℚ) < 100 := by linarith
    have : ⌊w⌋ < 100 := by exact_mod_cast h99
    omega
  · exact ⟨hf0, hf100⟩
  · refine ⟨by omega, ?_⟩
    have heq : w - ⌊w⌋ = 1/2 := le_antisymm (not_lt.mp hc2) (not_lt.mp hc1)
    have h99 : (⌊w⌋ : ℚ) < 100 := by linarith
    have : ⌊w⌋ < 100 := by exact_mod_cast h99
    omega

/-- The final `max(0.0, min(100.0, mn))` followed by `round(mn, 0)` always
lands in `[0, 100]`. -/
theorem pyRound0_clamp_range (q : ℚ) :
    0 ≤ pyRound0 (max 0 (min 100 q)) ∧ pyRound0 (max 0 (min 100 q)) ≤ 100 := by
  have h0 : (0:ℚ) ≤ max 0 (min 100 q) := le_max_left 0 (min 100 q)
  have h1 : max 0 (min 100 q) ≤ 100 :=
    max_le (by norm_num) (min_le_left 100 q)
  obtain ⟨hl, hr⟩ := bankersRound_bounds h0 h1
  unfold pyRound0
  constructor
  · exact_mod_cast hl
  · exact_mod_cast hr

/-- Rounding helper: value below the halfway point rounds down. -/
theorem bankersRound_down (q : ℚ) (n : ℤ) (hfl : ⌊q⌋ = n) (h : q - n < 1/2) :
    bankersRound q = n := by
  unfold bankersRound
  rw [hfl, if_pos h]

/-- Rounding helper: value above the halfway point rounds up. -/
theorem bankersRound_up (q : ℚ) (n : ℤ) (hfl : ⌊q⌋ = n) (h : 1/2 < q - n) :
    bankersRound q = n + 1 := by
  unfold bankersRound
  rw [hfl, if_neg (by linarith), if_pos h]

/-- A pointwise nonnegative composition has no negative entry. -/
theorem no_hasNeg_of_nonneg {comp : Component → ℚ}
    (hnn : ∀ c ∈ Component.all, 0 ≤ comp c) : ¬ hasNeg comp := by
  rintro ⟨c, hc, hlt⟩
  exact absurd hlt (not_lt.mpr (hnn c hc))

/-- Alias folding preserves pointwise nonnegativity. -/
theorem mnum_normalize_nonneg {comp : Component → ℚ}
    (hnn : ∀ c ∈ Component.all, 0 ≤ comp c) (c : Component) :
    0 ≤ mnum_normalize comp c := by
  apply List.sum_nonneg
  rintro q hq
  obtain ⟨k, hk, rfl⟩ := List.mem_map.1 hq
  split_ifs
  · exact hnn k hk
  · exact le_rfl

/-- C1: for every composition with nonnegative fractions whose
combustible-plus-CO2 total (the `sum_all - n2` of `_correct_for_inerts`)
exceeds `1e-9`, `estimate_methane_number` of `methane_number.py` raises
`TypeError`: the mangled `_calculate_mn_a20` returns `None`, which
`_correct_for_inerts` hands to the addition `mn_prime + mn_inerts`. -/
theorem mnum_estimate_typeError_of_combustibles (comp : Component → ℚ)
    (hnn : ∀ c ∈ Component.all, 0 ≤ comp c)
    (h : 1/1000000000 < mnum_sumCombExInerts comp + comp Component.CO2) :
    mnum_estimate comp = PyResult.typeError := by
  have hneg : ¬ hasNeg (mnum_normalize comp) := by
    rintro ⟨c, -, hlt⟩
    exact absurd hlt (not_lt.mpr (mnum_normalize_nonneg hnn c))
  have hcfi : mnum_correct_for_inerts comp = none := by
    unfold mnum_correct_for_inerts
    rw [if_pos (by linarith)]
    rfl
  unfold mnum_estimate
  rw [if_neg hneg, hcfi]
  rfl

/-- C1 witness: the hypotheses hold at the pure-methane composition. -/
theorem mnum_estimate_typeError_of_combustibles_witness :
    mnum_estimate pureCH4 = PyResult.typeError :=
  mnum_estimate_typeError_of_combustibles pureCH4
    (by intro c hc; fin_cases hc <;> norm_num [pureCH4])
    (by simp [mnum_sumCombExInerts, pureCH4, Component.all]; norm_num)

set_option maxHeartbeats 2000000 in
/-- C2: at `{"CH4": 1.0}` the `methane_number.py` estimator raises
`TypeError` (instead of the claimed `100.0`), while the `mn.py` estimator
returns `100.0` through its pure-methane special case. -/
theorem pure_methane_eval :
    mnum_estimate pureCH4 = PyResult.typeError
      ∧ mn_estimate pureCH4 = PyResult.ok 100 := by
  constructor
  · have hneg : ¬ hasNeg (mnum_normalize pureCH4) := by
      simp [hasNeg, mnum_normalize, mnum_alias, pureCH4, Component.all]
    have hcfi : mnum_correct_for_inerts pureCH4 = none := by
      simp [mnum_correct_for_inerts, mnum_calculate_mn_a20, mnum_sumCombExInerts,
        pureCH4, Component.all]
      norm_num
    unfold mnum_estimate
    rw [if_neg hneg, hcfi]
    rfl
  · simp [mn_estimate, hasNeg, Component.all, mn_GROUP_B, mn_GROUP_C, pureCH4]

set_option maxHeartbeats 4000000 in
/-- Evaluation of the `methane_number.py` estimator at the empty composition:
`mn_prime = 100`, `mn_inerts = 100`, `mn = 99.9997`, clamped and rounded to
`100.0` (shared helper). -/
theorem mnum_estimate_empty_eval : mnum_estimate emptyComp = PyResult.ok 100 := by
  have hneg : ¬ hasNeg (mnum_normalize emptyComp) := by
    simp [hasNeg, mnum_normalize, mnum_alias, emptyComp, Component.all]
  have hcfi : mnum_correct_for_inerts emptyComp = some 100 := by
    simp [mnum_correct_for_inerts, mnum_sumCombExInerts, emptyComp, Component.all]
  have hprime : mnum_mnPrime emptyComp = 100 := by
    simp [mnum_mnPrime, mnum_sumB, mnum_sumC, sumPos, mnum_GROUP_B, mnum_GROUP_C,
      mnum_simplified, mnum_simplify, mnum_simplifyStep, mnum_combustibles,
      mnum_normalize, mnum_alias, emptyComp, Component.all]
  unfold mnum_estimate
  rw [if_neg hneg, hcfi]
  simp only [Option.elim]
  rw [hprime]
  have hclamp : max (0:ℚ) (min 100 (100 + 100 - 1000003/10000)) = 999997/10000 := by
    norm_num [min_def, max_def]
  rw [hclamp]
  unfold pyRound0
  rw [bankersRound_up _ 99 (by norm_num) (by norm_num)]
  norm_num

/-- C3 counterexample: contrary to the claim, the empty composition does NOT
raise in `methane_number.py`: the estimator returns the numeric result
`100.0`. -/
theorem mnum_estimate_empty_returns : mnum_estimate emptyComp = PyResult.ok 100 :=
  mnum_estimate_empty_eval

/-- C3 amended: in `mn.py`, every composition with nonnegative fractions
whose recognized (`ALLOWED_COMPONENTS`) total is zero — the empty composition
included — raises `ValueError`. -/
theorem mn_estimate_valueError_of_zero_recognized (comp : Component → ℚ)
    (hnn : ∀ c ∈ Component.all, 0 ≤ comp c)
    (hz : (mn_ALLOWED.map comp).sum = 0) :
    mn_estimate comp = PyResult.valueError := by
  have hall : ∀ c ∈ mn_ALLOWED, comp c = 0 := by
    intro c hc
    refine sum_zero_of_nonneg (mn_ALLOWED.map comp) ?_ hz (comp c)
      (List.mem_map_of_mem comp hc)
    rintro q hq
    obtain ⟨k, -, rfl⟩ := List.mem_map.1 hq
    exact hnn k (component_mem_all k)
  have hneg : ¬ hasNeg comp := no_hasNeg_of_nonneg hnn
  have hnoB : ¬ ∃ b ∈ mn_GROUP_B, 0 < comp b := by
    rintro ⟨b, hb, hpos⟩
    have hb' : b ∈ mn_ALLOWED := by fin_cases hb <;> decide
    rw [hall b hb'] at hpos
    exact lt_irrefl 0 hpos
  have hnoCH4 : ¬ (0 < comp Component.CH4 ∧ ¬ 0 < comp Component.C2H6) := by
    rintro ⟨hpos, -⟩
    rw [hall Component.CH4 (by decide)] at hpos
    exact lt_irrefl 0 hpos
  unfold mn_estimate
  rw [if_neg hneg, if_pos (Or.inl hnoB), if_neg hnoCH4]

/-- C3 witness: the amended theorem applies to the empty composition. -/
theorem mn_estimate_valueError_of_zero_recognized_witness :
    mn_estimate emptyComp = PyResult.valueError :=
  mn_estimate_valueError_of_zero_recognized emptyComp
    (by intro c hc; fin_cases hc <;> norm_num [emptyComp])
    (by simp [mn_ALLOWED, mn_GROUP_A, mn_GROUP_B, mn_GROUP_C, emptyComp])

set_option maxHeartbeats 4000000 in
/-- C4 counterexample: `mn.py` has no clamp, and on the valid unit-sum
composition `{"C3H8": 0.5, "N2": 0.5}` it returns `220.97`, far outside
`[0, 100]`. -/
theorem mn_estimate_exceeds_100 :
    mn_estimate propaneNitrogen = PyResult.ok (22097/100)
      ∧ ¬ (22097/100 : ℚ) ≤ 100 := by
  have hneg : ¬ hasNeg propaneNitrogen := by
    simp [hasNeg, Component.all, propaneNitrogen]
  have hb : ∃ b ∈ mn_GROUP_B, 0 < propaneNitrogen b :=
    ⟨.C3H8, by decide, by norm_num [propaneNitrogen]⟩
  have hc : ∃ c ∈ mn_GROUP_C, 0 < propaneNitrogen c :=
    ⟨.N2, by decide, by norm_num [propaneNitrogen]⟩
  have hsb : mn_sumB propaneNitrogen = 1/2 := by
    simp [mn_sumB, sumPos, mn_GROUP_B, propaneNitrogen]
  have hsc : mn_sumC propaneNitrogen = 1/2 := by
    simp [mn_sumC, sumPos, mn_GROUP_C, propaneNitrogen]
  have hmnb : mn_mnemoB propaneNitrogen = 3 := by
    unfold mn_mnemoB
    rw [hsb]
    simp [mn_GROUP_B, mn_CARBON_ATOMS, propaneNitrogen]
    norm_num
  have hmnc : mn_mnemoC propaneNitrogen = 0 := by
    unfold mn_mnemoC
    rw [hsc]
    simp [mn_GROUP_C, mn_CARBON_ATOMS, propaneNitrogen]
  have htmn : get_tmn 3 0 = 100 := by
    norm_num [get_tmn, find_closest_index, find_closest_go, MNEMO_B_VALUES,
      MNEMO_C_VALUES, TMN_TABLE, abs]
  have hprime : mn_mnPrime propaneNitrogen = 25 := by
    unfold mn_mnPrime
    rw [hmnb, hmnc, htmn]
    simp [mn_GROUP_B, mn_GROUP_C, propaneNitrogen]
    norm_num
  have hcomb : mn_sumCombustibles propaneNitrogen = 1/2 := by
    simp [mn_sumCombustibles, sumPos, mn_GROUP_A, mn_GROUP_B, propaneNitrogen]
  have ha20 : mn_calculate_mn_a20 100 0 = 29597491529/100000000 := by
    norm_num [mn_calculate_mn_a20, A20_COEFFICIENTS, Finset.sum_range_succ, List.getD]
  have hfin : mn_mnFinal propaneNitrogen = 22097461529/100000000 := by
    unfold mn_mnFinal
    rw [hcomb, show propaneNitrogen Component.CO2 = 0 from rfl,
      if_pos (by norm_num : (0:ℚ) < 1/2 + 0), hprime]
    norm_num [ha20]
  refine ⟨?_, by norm_num⟩
  unfold mn_estimate
  rw [if_neg hneg,
    if_neg (by rintro (hnb | hnc); exacts [hnb hb, hnc hc]),
    if_neg (by rw [hsb, hsc]; norm_num), hfin]
  unfold pyRound2
  rw [show (22097461529/100000000 : ℚ) * 100 = 22097461529/1000000 from by norm_num,
    bankersRound_down _ 22097 (by norm_num) (by norm_num)]
  norm_num

/-- C4 amended: every value the `methane_number.py` estimator actually
returns lies in `[0, 100]` — the combination is clamped to `[0, 100]` and
then rounded (the `mn.py` variant returns unclamped values). -/
theorem mnum_estimate_ok_range (comp : Component → ℚ) (v : ℚ)
    (h : mnum_estimate comp = PyResult.ok v) : 0 ≤ v ∧ v ≤ 100 := by
  by_cases hneg : hasNeg (mnum_normalize comp)
  · unfold mnum_estimate at h
    rw [if_pos hneg] at h
    exact PyResult.noConfusion h
  · unfold mnum_estimate at h
    rw [if_neg hneg] at h
    cases hcfi : mnum_correct_for_inerts comp with
    | none =>
      rw [hcfi] at h
      exact PyResult.noConfusion h
    | some mi =>
      rw [hcfi] at h
      simp only [Option.elim] at h
      have hv : pyRound0 (max 0 (min 100 (mnum_mnPrime comp + mi - 1000003/10000))) = v :=
        by injection h
      rw [← hv]
      exact pyRound0_clamp_range _

/-- C4 witness: the amended theorem applied at the empty composition, on
which the estimator returns `100`. -/
theorem mnum_estimate_ok_range_witness : 0 ≤ (100:ℚ) ∧ (100:ℚ) ≤ 100 :=
  mnum_estimate_ok_range emptyComp 100 mnum_estimate_empty_eval

set_option maxHeartbeats 4000000 in
/-- C5 evaluation: on `{CH4: 0.9, C3H8: 0.05, C5H12: 0.03, N2: 0.02}` the
pipeline leaves the pentane in group C — `sum(group_b)` is `0.05`, not the
claimed `0.119` — because `_simplify_composition` is applied to
`{**group_a, **group_b}` which can never contain `C5H12`; fed a pentane
directly, `_simplify_composition` does convert it (`0.03 × 2.3 = 0.069`). -/
theorem pentane_not_simplified :
    mnum_sumB pentaneMix = 1/20
      ∧ mnum_sumC pentaneMix = 1/20
      ∧ mnum_simplified pentaneMix .C4H10 = 0
      ∧ mnum_normalize pentaneMix .C5H12 = 3/100
      ∧ mnum_simplify pentaneOnly .C4H10 = 69/1000
      ∧ mnum_simplify pentaneOnly .C5H12 = 0 := by
  refine ⟨?_, ?_, ?_, ?_, ?_, ?_⟩
  · simp [mnum_sumB, sumPos, mnum_GROUP_B, mnum_GROUP_A, mnum_simplified,
      mnum_simplify, mnum_simplifyStep, mnum_combustibles, mnum_normalize,
      mnum_alias, pentaneMix, Component.all]
  · simp [mnum_sumC, sumPos, mnum_GROUP_C, mnum_normalize, mnum_alias,
      pentaneMix, Component.all]
    norm_num
  · simp [mnum_simplified, mnum_simplify, mnum_simplifyStep, mnum_combustibles,
      mnum_GROUP_A, mnum_GROUP_B, mnum_normalize, mnum_alias, pentaneMix,
      Component.all]
  · simp [mnum_normalize, mnum_alias, pentaneMix, Component.all]
  · simp [mnum_simplify, mnum_simplifyStep, pentaneOnly]
    norm_num
  · simp [mnum_simplify, mnum_simplifyStep, pentaneOnly]

set_option maxHeartbeats 4000000 in
/-- C6 counterexample: at `{"H2O": 1.0}` the code returns `100.0` while the
claimed formula (whose `total` includes `H2O`) evaluates the A20 polynomial
at `(0, 0)` and yields `299.1743`; at `{"CH4": 1.0}` the code hands the
nitrogen-free percentages to the mangled `_calculate_mn_a20` and yields
`None` rather than a polynomial value. -/
theorem correct_for_inerts_cex :
    mnum_correct_for_inerts h2oOnly = some 100
      ∧ correctForInertsClaim h2oOnly ≠ 100
      ∧ mnum_correct_for_inerts pureCH4 = none := by
  have hs : mnum_sumCombExInerts h2oOnly = 0 := by
    simp [mnum_sumCombExInerts, h2oOnly, Component.all]
  refine ⟨?_, ?_, ?_⟩
  · unfold mnum_correct_for_inerts
    rw [hs, show h2oOnly Component.N2 = 0 from rfl,
      show h2oOnly Component.CO2 = 0 from rfl, if_neg (by norm_num)]
  · unfold correctForInertsClaim
    rw [hs, show h2oOnly Component.N2 = 0 from rfl,
      show h2oOnly Component.CO2 = 0 from rfl,
      show h2oOnly Component.H2O = 1 from rfl, if_neg (by norm_num)]
    norm_num [a20SuppliedSeries, A20_COEFFICIENTS, Finset.sum_range_succ, List.getD]
  · have hs' : mnum_sumCombExInerts pureCH4 = 1 := by
      simp [mnum_sumCombExInerts, pureCH4, Component.all]
    unfold mnum_correct_for_inerts
    rw [hs', show pureCH4 Component.N2 = 0 from rfl,
      show pureCH4 Component.CO2 = 0 from rfl, if_pos (by norm_num)]
    rfl

/-- C6 amended: `_correct_for_inerts` of `methane_number.py` returns exactly
`100.0` when its own total minus N2 — `sum(combustibles) + CO2`, with `H2O`
and `O2` excluded from the total — is at most `1e-9`, and otherwise returns
`None` (the computed nitrogen-free percentages are fed to the mangled
`_calculate_mn_a20`, whose body is the module docstring). -/
theorem mnum_correct_for_inerts_spec (comp : Component → ℚ) :
    (mnum_sumCombExInerts comp + comp Component.CO2 ≤ 1/1000000000 →
      mnum_correct_for_inerts comp = some 100)
    ∧ (1/1000000000 < mnum_sumCombExInerts comp + comp Component.CO2 →
      mnum_correct_for_inerts comp = none) := by
  constructor
  · intro h
    unfold mnum_correct_for_inerts
    rw [if_neg (not_lt.mpr (by linarith))]
  · intro h
    unfold mnum_correct_for_inerts
    rw [if_pos (by linarith)]
    rfl

set_option maxHeartbeats 2000000 in
/-- C6 witness: both branches of the amended characterization at concrete
compositions. -/
theorem mnum_correct_for_inerts_spec_witness :
    mnum_correct_for_inerts h2oOnly = some 100
      ∧ mnum_correct_for_inerts pureCH4 = none :=
  ⟨(mnum_correct_for_inerts_spec h2oOnly).1
      (by simp [mnum_sumCombExInerts, h2oOnly, Component.all]),
   (mnum_correct_for_inerts_spec pureCH4).2
      (by simp [mnum_sumCombExInerts, pureCH4, Component.all]; norm_num)⟩

/-- C7 counterexample: the nested-loop evaluation and the sum over exactly
the supplied coefficients differ (already at `x = 1`, `y = 1`): the loop
bound `j < 7 - i` skips the supplied coefficient `a[2][5]`. -/
theorem a20_nested_ne_supplied : mn_calculate_mn_a20 1 1 ≠ a20SuppliedSeries 1 1 := by
  norm_num [mn_calculate_mn_a20, a20SuppliedSeries, A20_COEFFICIENTS,
    Finset.sum_range_succ, List.getD]

/-- C7 amended: the nested loop of `mn.py` equals the triangular series over
the supplied coefficients with the single term `a[2][5]·x²·y⁵` removed
(`a[2][5] = -6.1439140e-11`, so the difference is `+6.1439140e-11·x²·y⁵`). -/
theorem a20_nested_eq_supplied_minus_a25 (x y : ℚ) :
    mn_calculate_mn_a20 x y
      = a20SuppliedSeries x y + 61439140/1000000000000000000 * x ^ 2 * y ^ 5 := by
  simp only [mn_calculate_mn_a20, a20SuppliedSeries, A20_COEFFICIENTS]
  norm_num [Finset.sum_range_succ]
  ring

/-- C8: every query exactly halfway between two adjacent grid points of
either axis resolves to the lower grid index — the loop updates only on a
strict improvement, so the first (lower) index wins the tie; the function is
pure, hence deterministic on every call. -/
theorem tmn_midpoint_resolves_lower :
    find_closest_index ((MNEMO_B_VALUES.getD 0 0 + MNEMO_B_VALUES.getD 1 0) / 2)
        MNEMO_B_VALUES = 0
      ∧ find_closest_index ((MNEMO_B_VALUES.getD 1 0 + MNEMO_B_VALUES.getD 2 0) / 2)
        MNEMO_B_VALUES = 1
      ∧ find_closest_index ((MNEMO_B_VALUES.getD 2 0 + MNEMO_B_VALUES.getD 3 0) / 2)
        MNEMO_B_VALUES = 2
      ∧ find_closest_index ((MNEMO_C_VALUES.getD 0 0 + MNEMO_C_VALUES.getD 1 0) / 2)
        MNEMO_C_VALUES = 0
      ∧ find_closest_index ((MNEMO_C_VALUES.getD 1 0 + MNEMO_C_VALUES.getD 2 0) / 2)
        MNEMO_C_VALUES = 1
      ∧ find_closest_index ((MNEMO_C_VALUES.getD 2 0 + MNEMO_C_VALUES.getD 3 0) / 2)
        MNEMO_C_VALUES = 2
      ∧ find_closest_index ((MNEMO_C_VALUES.getD 3 0 + MNEMO_C_VALUES.getD 4 0) / 2)
        MNEMO_C_VALUES = 3
      ∧ find_closest_index ((MNEMO_C_VALUES.getD 4 0 + MNEMO_C_VALUES.getD 5 0) / 2)
        MNEMO_C_VALUES = 4
      ∧ find_closest_index ((MNEMO_C_VALUES.getD 5 0 + MNEMO_C_VALUES.getD 6 0) / 2)
        MNEMO_C_VALUES = 5
      ∧ find_closest_index ((MNEMO_C_VALUES.getD 6 0 + MNEMO_C_VALUES.getD 7 0) / 2)
        MNEMO_C_VALUES = 6
      ∧ find_closest_index ((MNEMO_C_VALUES.getD 7 0 + MNEMO_C_VALUES.getD 8 0) / 2)
        MNEMO_C_VALUES = 7
      ∧ find_closest_index ((MNEMO_C_VALUES.getD 8 0 + MNEMO_C_VALUES.getD 9 0) / 2)
        MNEMO_C_VALUES = 8
      ∧ find_closest_index ((MNEMO_C_VALUES.getD 9 0 + MNEMO_C_VALUES.getD 10 0) / 2)
        MNEMO_C_VALUES = 9 := by
  refine ⟨?_, ?_, ?_, ?_, ?_, ?_, ?_, ?_, ?_, ?_, ?_, ?_, ?_⟩ <;>
    norm_num [find_closest_index, find_closest_go, MNEMO_B_VALUES, MNEMO_C_VALUES,
      List.getD, abs]

/-- C9: the TMN lookup never extrapolates — for every query pair it returns
the same table value as for the query clamped to the axis ranges
(`[1, 4]` for `Mnemo_B`, `[0, 1]` for `Mnemo_C`). -/
theorem get_tmn_clamped (b c : ℚ) :
    get_tmn b c = get_tmn (max 1 (min b 4)) (max 0 (min c 1)) := by
  unfold get_tmn
  rw [fci_B_clamp b, fci_C_clamp c]

set_option maxHeartbeats 4000000 in
/-- C10 counterexample: on the scenario composition the code's
`Mnemo_B = (0.03·3 + 0.012·4)/0.042` is `23/7 ≈ 3.2857`, not `≈ 3.143` as
the claim asserts — the two differ by more than `0.1`. -/
theorem scenario_mnemoB_not_3143 :
    mnum_mnemoB scenarioComp = 23/7
      ∧ ¬ |mnum_mnemoB scenarioComp - 3143/1000| ≤ 1/10 := by
  have hb : mnum_mnemoB scenarioComp = 23/7 := by
    simp [mnum_mnemoB, mnum_sumB, sumPos, mnum_GROUP_B, mnum_GROUP_A,
      mnum_simplified, mnum_simplify, mnum_simplifyStep, mnum_combustibles,
      mnum_normalize, mnum_alias, mnum_CARBON_ATOMS, scenarioComp, Component.all]
    norm_num
  refine ⟨hb, ?_⟩
  rw [hb]
  norm_num [abs]

set_option maxHeartbeats 8000000 in
/-- C10 amended: the scenario composition reduces to `sum(group_b) = 0.042`,
`sum(group_c) = 0.042`, `Mnemo_B = 23/7 ≈ 3.286`, `Mnemo_C = 2/7 ≈ 0.2857`,
and the nearest-grid lookup resolves to row index 2 (grid `B = 3.0`) and
column index 3 (grid `C = 0.3`) with table value `92.8554`. -/
theorem scenario_reduction :
    mnum_sumB scenarioComp = 21/500
      ∧ mnum_sumC scenarioComp = 21/500
      ∧ mnum_mnemoB scenarioComp = 23/7
      ∧ |mnum_mnemoB scenarioComp - 3286/1000| ≤ 1/1000
      ∧ mnum_mnemoC scenarioComp = 2/7
      ∧ |mnum_mnemoC scenarioComp - 2857/10000| ≤ 1/10000
      ∧ find_closest_index (mnum_mnemoB scenarioComp) MNEMO_B_VALUES = 2
      ∧ MNEMO_B_VALUES.getD 2 0 = 3
      ∧ find_closest_index (mnum_mnemoC scenarioComp) MNEMO_C_VALUES = 3
      ∧ MNEMO_C_VALUES.getD 3 0 = 3/10
      ∧ get_tmn (mnum_mnemoB scenarioComp) (mnum_mnemoC scenarioComp)
          = 928554/10000 := by
  have hb : mnum_mnemoB scenarioComp = 23/7 := by
    simp [mnum_mnemoB, mnum_sumB, sumPos, mnum_GROUP_B, mnum_GROUP_A,
      mnum_simplified, mnum_simplify, mnum_simplifyStep, mnum_combustibles,
      mnum_normalize, mnum_alias, mnum_CARBON_ATOMS, scenarioComp, Component.all]
    norm_num
  have hc : mnum_mnemoC scenarioComp = 2/7 := by
    simp [mnum_mnemoC, mnum_sumC, sumPos, mnum_GROUP_C,
      mnum_normalize, mnum_alias, mnum_CARBON_ATOMS, scenarioComp, Component.all]
    norm_num
  refine ⟨?_, ?_, hb, ?_, hc, ?_, ?_, ?_, ?_, ?_, ?_⟩
  · simp [mnum_sumB, sumPos, mnum_GROUP_B, mnum_GROUP_A,
      mnum_simplified, mnum_simplify, mnum_simplifyStep, mnum_combustibles,
      mnum_normalize, mnum_alias, scenarioComp, Component.all]
    norm_num
  · simp [mnum_sumC, sumPos, mnum_GROUP_C, mnum_normalize, mnum_alias,
      scenarioComp, Component.all]
    norm_num
  · rw [hb]; norm_num [abs]
  · rw [hc]; norm_num [abs]
  · rw [hb]
    norm_num [find_closest_index, find_closest_go, MNEMO_B_VALUES, abs]
  · norm_num [MNEMO_B_VALUES, List.getD]
  · rw [hc]
    norm_num [find_closest_index, find_closest_go, MNEMO_C_VALUES, abs]
  · norm_num [MNEMO_C_VALUES, List.getD]
  · rw [hb, hc]
    norm_num [get_tmn, find_closest_index, find_closest_go, MNEMO_B_VALUES,
      MNEMO_C_VALUES, TMN_TABLE, abs, List.getD]
